import Mathlib

/-!
Verification of the share_medical_records Solana program
(src/programs/share_medical_records/src/lib.rs) against its design
specification.  The program stores a patient record of 152 individually
encrypted 32-byte blocks and lets callers queue a confidential
re-encryption job with an external engine, optionally gated on a
credential token.  Machine integers that are only passed through
(nonces, offsets, amounts) are modelled as Nat; no arithmetic is
performed on them by the program.
-/

namespace ShareMedicalRecords

/-- A byte, as stored in the on-chain byte arrays. -/
abbrev Byte := Fin 256

/-- An opaque encrypted field block: a Rust value of type [u8; 32].
The program never interprets its contents. -/
abbrev Block := Fin 32 → Byte

/-- A 32-byte public key ([u8; 32] / Pubkey in the source). -/
abbrev Key := Fin 32 → Byte

def zeroBlock : Block := fun _ => 0

def zeroKey : Key := fun _ => 0

instance : DecidableEq Block := fun f g =>
  decidable_of_iff (∀ i, f i = g i) funext_iff.symm

/-- A block whose bytes all equal n mod 256; used to build concrete
distinct test inputs. -/
def natBlock (n : Nat) : Block := fun _ => Fin.ofNat n

/-- Indexing `ciphertexts[i]` from the Rust body.  All uses are guarded
by the length-152 check, so the default is never reached there. -/
def getCt (cts : List Block) (i : Nat) : Block := cts.getD i zeroBlock

/-- Rust struct BasicDemographics (all fields encrypted blocks). -/
structure BasicDemographics where
  patient_id : Block
  age : Block
  gender : Block
  blood_type : Block
  weight : Block
  height : Block
  allergies : Fin 5 → Block

/-- Rust struct HealthcareData. -/
structure HealthcareData where
  medical_history : Fin 10 → Block
  medication_count : Block
  medications : Fin 8 → Block
  procedure_count : Block
  procedure_dates : Fin 8 → Block
  family_history : Fin 5 → Block

/-- Rust struct GenomicData. -/
structure GenomicData where
  variant_count : Block
  genetic_markers : Fin 15 → Block
  variant_significance : Fin 15 → Block
  carrier_status : Fin 5 → Block
  pharmacogenomic_markers : Fin 3 → Block
  ancestry_components : Fin 7 → Block

/-- Rust struct LabTestData. -/
structure LabTestData where
  lab_test_count : Block
  lab_test_types : Fin 10 → Block
  lab_test_dates : Fin 10 → Block
  lab_test_values : Fin 10 → Block
  lab_test_flags : Fin 10 → Block
  imaging_count : Block
  imaging_types : Fin 10 → Block
  imaging_dates : Fin 10 → Block

/-- Rust account struct PatientData: the persisted structured record. -/
structure PatientData where
  demographics : BasicDemographics
  healthcare : HealthcareData
  genomic : GenomicData
  lab_tests : LabTestData

/-- The error enum of the program (source order preserved). -/
inductive ErrorCode where
  | AbortedComputation
  | InvalidInputLength
  | InvalidAllergyData
  | ClusterNotSet
  | InvalidMedicalHistory
  | InvalidMedications
  | InvalidProcedureDates
  | InvalidFamilyHistory
  | InvalidGeneticMarkers
  | InvalidVariantSignificance
  | InvalidCarrierStatus
  | InvalidPharmacogenomicMarkers
  | InvalidAncestryComponents
  | InvalidLabTestTypes
  | InvalidLabTestDates
  | InvalidLabTestValues
  | InvalidLabTestFlags
  | InvalidImagingTypes
  | InvalidImagingDates
  | MissingCredential
  | InvalidCredentialMint
  | Unauthorized
deriving DecidableEq

/-- Failures raised by the Anchor framework during account resolution,
before the instruction body runs: an AccountLoader on an account that
was never initialized, and init on an account already in use. -/
inductive FrameworkError where
  | AccountNotInitialized
  | AccountAlreadyInUse
deriving DecidableEq

/-- Any error a transaction of this program can surface: one of the
program error codes, or an Anchor framework error. -/
inductive ProgError where
  | core (e : ErrorCode)
  | framework (e : FrameworkError)
deriving DecidableEq

/-- True exactly when the error is one of the program error codes
declared in the source, rather than a framework-level failure. -/
def errIsCore : ProgError → Bool
  | .core _ => true
  | .framework _ => false

/-- The Arcium SignerAccount PDA content (space 9 = 8-byte
discriminator + 1-byte bump). -/
structure SignerAccount where
  bump : Nat
deriving DecidableEq

/-- The fields of an SPL token account read by the credential gate. -/
structure TokenAccount where
  owner : Key
  mint : Key
  amount : Nat

/-- The field of an SPL mint account read by the credential gate. -/
structure MintAccount where
  decimals : Nat

/-- Arguments passed to the external engine through queue_computation,
mirroring the arcium Argument constructors used by the source. -/
inductive Argument where
  | ArcisPubkey (k : Key)
  | PlaintextU128 (v : Nat)
  | Account (key : Key) (off : Nat) (len : Nat)

/-- A job handed to queue_computation: the computation offset, the
ordered argument list, no callback server, no callback instructions
(the source passes None and an empty vector). -/
structure QueuedJob where
  computationOffset : Nat
  args : List Argument
  callbackServer : Option Unit
  callbackInstructions : List Unit

/-- The on-chain state a re-share transaction touches: the patient_data
account (its address and its contents, none when the account was never
initialized) and the singleton sign PDA. -/
structure ShareState where
  patientDataKey : Key
  patientData : Option PatientData
  signPda : Option SignerAccount

/-- Byte size of one encrypted block ([u8; 32]). -/
def blockByteSize : Nat := 32

/-- size_of BasicDemographics: 6 scalar blocks + 5 allergy blocks. -/
def basicDemographicsByteSize : Nat :=
  6 * blockByteSize + 5 * blockByteSize

/-- size_of HealthcareData: 10 + 1 + 8 + 1 + 8 + 5 blocks. -/
def healthcareDataByteSize : Nat :=
  10 * blockByteSize + blockByteSize + 8 * blockByteSize + blockByteSize
    + 8 * blockByteSize + 5 * blockByteSize

/-- size_of GenomicData: 1 + 15 + 15 + 5 + 3 + 7 blocks. -/
def genomicDataByteSize : Nat :=
  blockByteSize + 15 * blockByteSize + 15 * blockByteSize
    + 5 * blockByteSize + 3 * blockByteSize + 7 * blockByteSize

/-- size_of LabTestData: 1 + 10 + 10 + 10 + 10 + 1 + 10 + 10 blocks. -/
def labTestDataByteSize : Nat :=
  blockByteSize + 10 * blockByteSize + 10 * blockByteSize
    + 10 * blockByteSize + 10 * blockByteSize + blockByteSize
    + 10 * blockByteSize + 10 * blockByteSize

/-- core mem size_of PatientData: the four repr(C) sub-structs packed
with no padding (every field is a [u8; 32] multiple). -/
def patientDataByteSize : Nat :=
  basicDemographicsByteSize + healthcareDataByteSize
    + genomicDataByteSize + labTestDataByteSize

/-- The space requested for the patient_data account:
8 + size_of PatientData, from the init attribute of StorePatientData. -/
def storePatientDataSpace : Nat := 8 + patientDataByteSize

/-- PDA seeds of the patient_data account: the literal namespace tag
and the payer key, from seeds = [b"patient_data", payer.key()]. -/
def patientDataSeeds (owner : Key) : String × Key :=
  ("patient_data", owner)

/-- The record built by the body of store_patient_data: each ciphertext
is written into the slot the source assigns it (same indices). -/
def mkRecord (cts : List Block) : PatientData :=
  { demographics :=
      { patient_id := getCt cts 0
        age := getCt cts 1
        gender := getCt cts 2
        blood_type := getCt cts 3
        weight := getCt cts 4
        height := getCt cts 5
        allergies := fun i => getCt cts (6 + i.val) }
    healthcare :=
      { medical_history := fun i => getCt cts (11 + i.val)
        medication_count := getCt cts 21
        medications := fun i => getCt cts (22 + i.val)
        procedure_count := getCt cts 30
        procedure_dates := fun i => getCt cts (31 + i.val)
        family_history := fun i => getCt cts (39 + i.val) }
    genomic :=
      { variant_count := getCt cts 44
        genetic_markers := fun i => getCt cts (45 + i.val)
        variant_significance := fun i => getCt cts (60 + i.val)
        carrier_status := fun i => getCt cts (75 + i.val)
        pharmacogenomic_markers := fun i => getCt cts (80 + i.val)
        ancestry_components := fun i => getCt cts (83 + i.val) }
    lab_tests :=
      { lab_test_count := getCt cts 90
        lab_test_types := fun i => getCt cts (91 + i.val)
        lab_test_dates := fun i => getCt cts (101 + i.val)
        lab_test_values := fun i => getCt cts (111 + i.val)
        lab_test_flags := fun i => getCt cts (121 + i.val)
        imaging_count := getCt cts 131
        imaging_types := fun i => getCt cts (132 + i.val)
        imaging_dates := fun i => getCt cts (142 + i.val) } }

/-- Body of the store_patient_data instruction: reject any input whose
length is not 152, otherwise write every block into its slot. -/
def store_patient_data (cts : List Block) : Except ErrorCode PatientData :=
  if cts.length ≠ 152 then .error .InvalidInputLength
  else .ok (mkRecord cts)

/-- Reading the stored record back, slot by slot, in the RecordLayout
order (demographics, healthcare, genomic, lab/imaging). -/
def fieldsOfRecord (r : PatientData) : List Block :=
  [r.demographics.patient_id, r.demographics.age, r.demographics.gender,
    r.demographics.blood_type, r.demographics.weight, r.demographics.height]
  ++ List.ofFn r.demographics.allergies
  ++ List.ofFn r.healthcare.medical_history
  ++ [r.healthcare.medication_count]
  ++ List.ofFn r.healthcare.medications
  ++ [r.healthcare.procedure_count]
  ++ List.ofFn r.healthcare.procedure_dates
  ++ List.ofFn r.healthcare.family_history
  ++ [r.genomic.variant_count]
  ++ List.ofFn r.genomic.genetic_markers
  ++ List.ofFn r.genomic.variant_significance
  ++ List.ofFn r.genomic.carrier_status
  ++ List.ofFn r.genomic.pharmacogenomic_markers
  ++ List.ofFn r.genomic.ancestry_components
  ++ [r.lab_tests.lab_test_count]
  ++ List.ofFn r.lab_tests.lab_test_types
  ++ List.ofFn r.lab_tests.lab_test_dates
  ++ List.ofFn r.lab_tests.lab_test_values
  ++ List.ofFn r.lab_tests.lab_test_flags
  ++ [r.lab_tests.imaging_count]
  ++ List.ofFn r.lab_tests.imaging_types
  ++ List.ofFn r.lab_tests.imaging_dates

/-- The whole store transaction: Anchor first runs the init constraint
of StorePatientData (fails if the PDA account already exists), then the
instruction body; any error reverts the transaction, so the account
state is unchanged on failure. -/
def store_patient_data_tx (existing : Option PatientData) (cts : List Block) :
    Except ProgError Unit × Option PatientData :=
  match existing with
  | some r => (.error (.framework .AccountAlreadyInUse), some r)
  | none =>
    match store_patient_data cts with
    | .error e => (.error (.core e), none)
    | .ok r => (.ok (), some r)

/-- Canonical bump of the sign PDA.  The actual value comes from the
external find_program_address hash and is a fixed constant of the
program id and seed; its numeric value is irrelevant to the claims. -/
def signPdaBump : Nat := 255

/-- The init_if_needed resolution of sign_pda_account followed by the
handler writing the canonical bump: returns the resulting account and
the new account state. -/
def ensureSignPdaTx (s : Option SignerAccount) :
    SignerAccount × Option SignerAccount :=
  match s with
  | none => ({ bump := signPdaBump }, some { bump := signPdaBump })
  | some a =>
    ({ a with bump := signPdaBump }, some { a with bump := signPdaBump })

/-- The argument list built by both share handlers, in source order:
receiver key, receiver nonce, sender key, sender nonce, then the
account region starting past the 8-byte discriminator with the byte
length of one PatientData. -/
def shareArgs (pdKey : Key) (receiver : Key) (receiverNonce : Nat)
    (senderPubKey : Key) (nonce : Nat) : List Argument :=
  [.ArcisPubkey receiver, .PlaintextU128 receiverNonce,
    .ArcisPubkey senderPubKey, .PlaintextU128 nonce,
    .Account pdKey 8 patientDataByteSize]

/-- The share_patient_data transaction.  Anchor account resolution
fails with AccountNotInitialized when the patient_data account does not
exist (there is no core lookup); otherwise the sign PDA is ensured, the
bump written, and the job queued with no callback.  The payer signs and
pays but the handler never branches on it. -/
def share_patient_data_tx (st : ShareState) (payer : Key)
    (computationOffset : Nat) (receiver : Key) (receiverNonce : Nat)
    (senderPubKey : Key) (nonce : Nat) :
    Except ProgError QueuedJob × ShareState :=
  match st.patientData with
  | none => (.error (.framework .AccountNotInitialized), st)
  | some _ =>
    (.ok
      { computationOffset := computationOffset
        args := shareArgs st.patientDataKey receiver receiverNonce
          senderPubKey nonce
        callbackServer := none
        callbackInstructions := [] },
      { st with signPda := (ensureSignPdaTx st.signPda).2 })

/-- The credential checks of share_patient_data_with_role, in source
order (the first two are also Anchor constraints of the accounts
struct, with the same errors): token account owned by the payer, token
account of the supplied mint, mint with zero decimals, balance at least
one.  Returns the error of the first failing check, none if all pass. -/
def credentialGate (payer : Key) (mintKey : Key) (mint : MintAccount)
    (tok : TokenAccount) : Option ErrorCode :=
  if tok.owner ≠ payer then some .Unauthorized
  else if tok.mint ≠ mintKey then some .Unauthorized
  else if mint.decimals ≠ 0 then some .InvalidCredentialMint
  else if tok.amount < 1 then some .MissingCredential
  else none

/-- The share_patient_data_with_role transaction: patient_data account
resolution, then the credential checks, then the same argument list,
sign PDA write and job queueing as the ungated share.  Any failure
reverts the transaction, so the state is unchanged and no job exists. -/
def share_patient_data_with_role_tx (st : ShareState) (payer : Key)
    (mintKey : Key) (mint : MintAccount) (tok : TokenAccount)
    (computationOffset : Nat) (receiver : Key) (receiverNonce : Nat)
    (senderPubKey : Key) (nonce : Nat) :
    Except ProgError QueuedJob × ShareState :=
  match st.patientData with
  | none => (.error (.framework .AccountNotInitialized), st)
  | some _ =>
    match credentialGate payer mintKey mint tok with
    | some e => (.error (.core e), st)
    | none =>
      (.ok
        { computationOffset := computationOffset
          args := shareArgs st.patientDataKey receiver receiverNonce
            senderPubKey nonce
          callbackServer := none
          callbackInstructions := [] },
        { st with signPda := (ensureSignPdaTx st.signPda).2 })

/-- share_patient_data_doctor: body is a direct call to the
parameterized gated share with the same arguments. -/
def share_patient_data_doctor_tx (st : ShareState) (payer : Key)
    (mintKey : Key) (mint : MintAccount) (tok : TokenAccount)
    (computationOffset : Nat) (receiver : Key) (receiverNonce : Nat)
    (senderPubKey : Key) (nonce : Nat) :
    Except ProgError QueuedJob × ShareState :=
  share_patient_data_with_role_tx st payer mintKey mint tok
    computationOffset receiver receiverNonce senderPubKey nonce

/-- share_patient_data_nurse: body is a direct call to the
parameterized gated share with the same arguments. -/
def share_patient_data_nurse_tx (st : ShareState) (payer : Key)
    (mintKey : Key) (mint : MintAccount) (tok : TokenAccount)
    (computationOffset : Nat) (receiver : Key) (receiverNonce : Nat)
    (senderPubKey : Key) (nonce : Nat) :
    Except ProgError QueuedJob × ShareState :=
  share_patient_data_with_role_tx st payer mintKey mint tok
    computationOffset receiver receiverNonce senderPubKey nonce

/-- share_patient_data_pharmacist: body is a direct call to the
parameterized gated share with the same arguments. -/
def share_patient_data_pharmacist_tx (st : ShareState) (payer : Key)
    (mintKey : Key) (mint : MintAccount) (tok : TokenAccount)
    (computationOffset : Nat) (receiver : Key) (receiverNonce : Nat)
    (senderPubKey : Key) (nonce : Nat) :
    Except ProgError QueuedJob × ShareState :=
  share_patient_data_with_role_tx st payer mintKey mint tok
    computationOffset receiver receiverNonce senderPubKey nonce

/-- The core program error a share result carries, if any: none when
the result is a queued job or a framework-level failure. -/
def coreErrorOf (res : Except ProgError QueuedJob) : Option ErrorCode :=
  match res with
  | .error (.core e) => some e
  | _ => none

/-- Concrete 152-block input with pairwise position-dependent contents,
for witnesses. -/
def testFields : List Block := (List.range 152).map natBlock

/-- Concrete stored record for witnesses. -/
def testRecord : PatientData := mkRecord testFields

/-- Concrete share state holding a record, for witnesses. -/
def testShareState : ShareState :=
  { patientDataKey := zeroKey
    patientData := some testRecord
    signPda := none }

/-- Concrete share state with no record, for the missing-record
claims. -/
def emptyShareState : ShareState :=
  { patientDataKey := zeroKey
    patientData := none
    signPda := none }

/-- A token account passing every credential check against zeroKey
payer and mint. -/
def passingTok : TokenAccount :=
  { owner := zeroKey, mint := zeroKey, amount := 1 }

/-- A token account with zero balance (fails only the balance check
against zeroKey payer and mint). -/
def emptyTok : TokenAccount :=
  { owner := zeroKey, mint := zeroKey, amount := 0 }

/-- A mint with zero decimals (passing the divisibility check). -/
def wholeMint : MintAccount := { decimals := 0 }

/-- An array segment of the stored record, read back with ofFn, is the
corresponding contiguous slice of the input. -/
theorem getCt_segment (cts : List Block) (a b : Nat)
    (h : a + b ≤ cts.length) :
    List.ofFn (fun i : Fin b => getCt cts (a + i.val))
      = (cts.drop a).take b := by
  apply List.ext_getElem
  · simp
    omega
  · intro i h1 h2
    simp only [List.getElem_ofFn, List.getElem_take, List.getElem_drop]
    simp only [List.length_ofFn] at h1
    simp [getCt, List.getD,
      List.getElem?_eq_getElem (show a + i < cts.length by omega)]

theorem seg_cons (cts : List Block) (a b : Nat) (t : List Block)
    (h : a + b ≤ cts.length) (ht : t = cts.drop (a + b)) :
    List.ofFn (fun i : Fin b => getCt cts (a + i.val)) ++ t
      = cts.drop a := by
  subst ht
  rw [getCt_segment cts a b h]
  rw [show cts.drop (a + b) = (cts.drop a).drop b by rw [List.drop_drop]]
  exact List.take_append_drop b (cts.drop a)

theorem seg_cons_one (cts : List Block) (a : Nat) (t : List Block)
    (h : a < cts.length) (ht : t = cts.drop (a + 1)) :
    getCt cts a :: t = cts.drop a := by
  subst ht
  rw [List.drop_eq_getElem_cons h]
  simp [getCt, List.getD, List.getElem?_eq_getElem h]

theorem seg_last (cts : List Block) (a b : Nat) (hab : a + b = cts.length) :
    List.ofFn (fun i : Fin b => getCt cts (a + i.val)) = cts.drop a := by
  rw [getCt_segment cts a b (le_of_eq hab)]
  apply List.take_of_length_le
  simp
  omega

/-- C1: storing a sequence of exactly 152 encrypted blocks writes block
i into slot i of the RecordLayout ordering, and reading the stored
record back through the layout reproduces the input exactly, in order,
with no transformation of any block. -/
theorem store_patient_data_roundtrip (cts : List Block)
    (h : cts.length = 152) :
    store_patient_data cts = .ok (mkRecord cts) ∧
      fieldsOfRecord (mkRecord cts) = cts := by
  constructor
  · simp [store_patient_data, h]
  · simp only [fieldsOfRecord, mkRecord, List.append_assoc,
      List.cons_append, List.singleton_append, List.nil_append]
    rw [seg_last cts 142 10 (by omega)]
    rw [seg_cons cts 132 10 (cts.drop 142) (by omega) (by norm_num)]
    rw [seg_cons_one cts 131 (cts.drop 132) (by omega) (by norm_num)]
    rw [seg_cons cts 121 10 (cts.drop 131) (by omega) (by norm_num)]
    rw [seg_cons cts 111 10 (cts.drop 121) (by omega) (by norm_num)]
    rw [seg_cons cts 101 10 (cts.drop 111) (by omega) (by norm_num)]
    rw [seg_cons cts 91 10 (cts.drop 101) (by omega) (by norm_num)]
    rw [seg_cons_one cts 90 (cts.drop 91) (by omega) (by norm_num)]
    rw [seg_cons cts 83 7 (cts.drop 90) (by omega) (by norm_num)]
    rw [seg_cons cts 80 3 (cts.drop 83) (by omega) (by norm_num)]
    rw [seg_cons cts 75 5 (cts.drop 80) (by omega) (by norm_num)]
    rw [seg_cons cts 60 15 (cts.drop 75) (by omega) (by norm_num)]
    rw [seg_cons cts 45 15 (cts.drop 60) (by omega) (by norm_num)]
    rw [seg_cons_one cts 44 (cts.drop 45) (by omega) (by norm_num)]
    rw [seg_cons cts 39 5 (cts.drop 44) (by omega) (by norm_num)]
    rw [seg_cons cts 31 8 (cts.drop 39) (by omega) (by norm_num)]
    rw [seg_cons_one cts 30 (cts.drop 31) (by omega) (by norm_num)]
    rw [seg_cons cts 22 8 (cts.drop 30) (by omega) (by norm_num)]
    rw [seg_cons_one cts 21 (cts.drop 22) (by omega) (by norm_num)]
    rw [seg_cons cts 11 10 (cts.drop 21) (by omega) (by norm_num)]
    rw [seg_cons cts 6 5 (cts.drop 11) (by omega) (by norm_num)]
    rw [seg_cons_one cts 5 (cts.drop 6) (by omega) (by norm_num)]
    rw [seg_cons_one cts 4 (cts.drop 5) (by omega) (by norm_num)]
    rw [seg_cons_one cts 3 (cts.drop 4) (by omega) (by norm_num)]
    rw [seg_cons_one cts 2 (cts.drop 3) (by omega) (by norm_num)]
    rw [seg_cons_one cts 1 (cts.drop 2) (by omega) (by norm_num)]
    rw [seg_cons_one cts 0 (cts.drop 1) (by omega) (by norm_num)]
    exact List.drop_zero cts

theorem store_patient_data_roundtrip_witness :
    store_patient_data testFields = .ok (mkRecord testFields) ∧
      fieldsOfRecord (mkRecord testFields) = testFields :=
  store_patient_data_roundtrip testFields (by simp [testFields])

/-- C2: every queued re-share job, gated or ungated, carries exactly
five arguments in the fixed order receiver key, receiver nonce, sender
key, sender nonce, then the record region past the 8-byte header with
the byte length of one structured record, which is 152 times 32. -/
theorem share_args_fixed_order (st : ShareState) (payer mintKey : Key)
    (mint : MintAccount) (tok : TokenAccount) (co : Nat) (receiver : Key)
    (rn : Nat) (spk : Key) (n : Nat) (r : PatientData)
    (hrec : st.patientData = some r)
    (hgate : credentialGate payer mintKey mint tok = none) :
    (share_patient_data_tx st payer co receiver rn spk n).1 =
      .ok { computationOffset := co
            args := [.ArcisPubkey receiver, .PlaintextU128 rn,
              .ArcisPubkey spk, .PlaintextU128 n,
              .Account st.patientDataKey 8 patientDataByteSize]
            callbackServer := none
            callbackInstructions := [] } ∧
    (share_patient_data_with_role_tx st payer mintKey mint tok co receiver
        rn spk n).1 =
      .ok { computationOffset := co
            args := [.ArcisPubkey receiver, .PlaintextU128 rn,
              .ArcisPubkey spk, .PlaintextU128 n,
              .Account st.patientDataKey 8 patientDataByteSize]
            callbackServer := none
            callbackInstructions := [] } ∧
    patientDataByteSize = 152 * 32 := by
  refine ⟨?_, ?_, by decide⟩
  · simp [share_patient_data_tx, hrec, shareArgs]
  · simp [share_patient_data_with_role_tx, hrec, hgate, shareArgs]

theorem share_args_fixed_order_witness :
    (share_patient_data_tx testShareState zeroKey 7 zeroKey 1 zeroKey 2).1 =
      .ok { computationOffset := 7
            args := [.ArcisPubkey zeroKey, .PlaintextU128 1,
              .ArcisPubkey zeroKey, .PlaintextU128 2,
              .Account zeroKey 8 patientDataByteSize]
            callbackServer := none
            callbackInstructions := [] } ∧
    (share_patient_data_with_role_tx testShareState zeroKey zeroKey
        wholeMint passingTok 7 zeroKey 1 zeroKey 2).1 =
      .ok { computationOffset := 7
            args := [.ArcisPubkey zeroKey, .PlaintextU128 1,
              .ArcisPubkey zeroKey, .PlaintextU128 2,
              .Account zeroKey 8 patientDataByteSize]
            callbackServer := none
            callbackInstructions := [] } ∧
    patientDataByteSize = 152 * 32 :=
  share_args_fixed_order testShareState zeroKey zeroKey wholeMint
    passingTok 7 zeroKey 1 zeroKey 2 testRecord rfl (by decide)

/-- C3: the four credential checks run in the fixed order owner, mint,
decimals, balance; the first failing check determines the reported
error (Unauthorized, Unauthorized, InvalidCredentialMint,
MissingCredential), and on any gate failure the gated share aborts with
that error, leaving the state unchanged and queueing no job. -/
theorem credential_gate_first_failure (payer mintKey : Key)
    (mint : MintAccount) (tok : TokenAccount) :
    (tok.owner ≠ payer →
      credentialGate payer mintKey mint tok = some .Unauthorized) ∧
    (tok.owner = payer → tok.mint ≠ mintKey →
      credentialGate payer mintKey mint tok = some .Unauthorized) ∧
    (tok.owner = payer → tok.mint = mintKey → mint.decimals ≠ 0 →
      credentialGate payer mintKey mint tok = some .InvalidCredentialMint) ∧
    (tok.owner = payer → tok.mint = mintKey → mint.decimals = 0 →
      tok.amount < 1 →
      credentialGate payer mintKey mint tok = some .MissingCredential) ∧
    (tok.owner = payer → tok.mint = mintKey → mint.decimals = 0 →
      1 ≤ tok.amount →
      credentialGate payer mintKey mint tok = none) ∧
    (∀ st co receiver rn spk n r e, st.patientData = some r →
      credentialGate payer mintKey mint tok = some e →
      share_patient_data_with_role_tx st payer mintKey mint tok co
          receiver rn spk n
        = (.error (.core e), st)) := by
  refine ⟨?_, ?_, ?_, ?_, ?_, ?_⟩
  · intro h1
    simp [credentialGate, h1]
  · intro h1 h2
    simp [credentialGate, h1, h2]
  · intro h1 h2 h3
    simp [credentialGate, h1, h2, h3]
  · intro h1 h2 h3 h4
    simp [credentialGate, h1, h2, h3, h4]
  · intro h1 h2 h3 h4
    simp [credentialGate, h1, h2, h3, Nat.not_lt.mpr h4]
  · intro st co receiver rn spk n r e hrec hgate
    simp [share_patient_data_with_role_tx, hrec, hgate]

theorem credential_gate_first_failure_witness :
    share_patient_data_with_role_tx testShareState zeroKey zeroKey
        wholeMint emptyTok 7 zeroKey 1 zeroKey 2
      = (.error (.core .MissingCredential), testShareState) :=
  (credential_gate_first_failure zeroKey zeroKey wholeMint
      emptyTok).2.2.2.2.2 testShareState 7 zeroKey 1 zeroKey 2 testRecord
    .MissingCredential rfl (by decide)

/-- C4: a store with any input length other than 152 fails with
InvalidInputLength, and the whole transaction leaves the account
uncreated: no record and no slot is ever written. -/
theorem store_patient_data_rejects_bad_length (cts : List Block)
    (h : cts.length ≠ 152) :
    store_patient_data cts = .error .InvalidInputLength ∧
      store_patient_data_tx none cts
        = (.error (.core .InvalidInputLength), none) := by
  constructor
  · simp [store_patient_data, h]
  · simp [store_patient_data_tx, store_patient_data, h]

theorem store_patient_data_rejects_bad_length_witness :
    store_patient_data [] = .error .InvalidInputLength ∧
      store_patient_data_tx none []
        = (.error (.core .InvalidInputLength), none) :=
  store_patient_data_rejects_bad_length [] (by decide)

/-- C5 counterexample: at a state with no stored record, the re-share
transaction fails (no job) but its error is a framework
account-resolution failure, not any core program error, so the claim
that it fails with a core NotFound error is false (the ErrorCode enum
of the source has no NotFound variant at all). -/
theorem share_missing_record_error_not_core :
    (share_patient_data_tx emptyShareState zeroKey 0 zeroKey 0 zeroKey 0).1
        = .error (.framework .AccountNotInitialized) ∧
      errIsCore (ProgError.framework .AccountNotInitialized) = false ∧
      coreErrorOf
        (share_patient_data_tx emptyShareState zeroKey 0 zeroKey 0
          zeroKey 0).1 = none :=
  ⟨rfl, rfl, rfl⟩

/-- C5 amended: a re-share naming an owner with no stored record fails
during account resolution with the framework AccountNotInitialized
error, the state is unchanged and no job is queued. -/
theorem share_missing_record_fails_framework (st : ShareState)
    (payer : Key) (co : Nat) (receiver : Key) (rn : Nat) (spk : Key)
    (n : Nat) (h : st.patientData = none) :
    share_patient_data_tx st payer co receiver rn spk n
      = (.error (.framework .AccountNotInitialized), st) := by
  simp [share_patient_data_tx, h]

theorem share_missing_record_fails_framework_witness :
    share_patient_data_tx emptyShareState zeroKey 0 zeroKey 0 zeroKey 0
      = (.error (.framework .AccountNotInitialized), emptyShareState) :=
  share_missing_record_fails_framework emptyShareState zeroKey 0 zeroKey
    0 zeroKey 0 rfl

/-- C6: the sign PDA ensure step is an idempotent get-or-create: a
first call creates the singleton with just the canonical bump, a
second call returns the same identity and leaves the state unchanged,
the state always holds exactly the returned identity, and every
successful re-share leaves the sign PDA equal to the ensured
identity. -/
theorem ensure_sign_pda_idempotent :
    ∀ s : Option SignerAccount,
      (ensureSignPdaTx (ensureSignPdaTx s).2).1 = (ensureSignPdaTx s).1 ∧
      (ensureSignPdaTx (ensureSignPdaTx s).2).2 = (ensureSignPdaTx s).2 ∧
      (ensureSignPdaTx s).2 = some (ensureSignPdaTx s).1 ∧
      ensureSignPdaTx none
        = ({ bump := signPdaBump }, some { bump := signPdaBump }) ∧
      (∀ st : ShareState, ∀ r : PatientData, ∀ payer co receiver rn spk n,
        (share_patient_data_tx { st with patientData := some r } payer co
            receiver rn spk n).2.signPda
          = some (ensureSignPdaTx st.signPda).1) := by
  intro s
  refine ⟨?_, ?_, ?_, rfl, ?_⟩
  · cases s <;> rfl
  · cases s <;> rfl
  · cases s <;> rfl
  · intro st r payer co receiver rn spk n
    cases hs : st.signPda <;>
      simp [share_patient_data_tx, ensureSignPdaTx, hs]

/-- C7: the doctor, nurse and pharmacist entry points are, for every
input, the very same transaction as the parameterized role-gated
share: same checks, same errors, same queued job. -/
theorem role_variants_equal_parameterized_share :
    ∀ st payer mintKey mint tok co receiver rn spk n,
      share_patient_data_doctor_tx st payer mintKey mint tok co receiver
          rn spk n
        = share_patient_data_with_role_tx st payer mintKey mint tok co
            receiver rn spk n ∧
      share_patient_data_nurse_tx st payer mintKey mint tok co receiver
          rn spk n
        = share_patient_data_with_role_tx st payer mintKey mint tok co
            receiver rn spk n ∧
      share_patient_data_pharmacist_tx st payer mintKey mint tok co
          receiver rn spk n
        = share_patient_data_with_role_tx st payer mintKey mint tok co
            receiver rn spk n :=
  fun _ _ _ _ _ _ _ _ _ _ => ⟨rfl, rfl, rfl⟩

/-- C8: the patient_data account is allocated with exactly 8 header
bytes plus the 152 times 32 record bytes, 4872 in total, and its
storage key is the deterministic pair of the fixed namespace tag and
the owner key: two owners get the same location exactly when they are
the same owner. -/
theorem patient_data_space_and_seed_determinism :
    storePatientDataSpace = 8 + 152 * 32 ∧
      storePatientDataSpace = 4872 ∧
      (∀ o o2 : Key, patientDataSeeds o = patientDataSeeds o2 ↔ o = o2) := by
  refine ⟨by decide, by decide, ?_⟩
  intro o o2
  constructor
  · intro h
    exact congrArg Prod.snd h
  · intro h
    rw [h]

/-- C9: no re-share transaction, gated or ungated, succeeding or
failing, changes the stored record, and a second store against an
existing record leaves it untouched: slots are written only at
creation. -/
theorem stored_record_never_mutated :
    ∀ st payer mintKey mint tok co receiver rn spk n
      (r : PatientData) (cts : List Block),
      (share_patient_data_tx st payer co receiver rn spk n).2.patientData
          = st.patientData ∧
      (share_patient_data_with_role_tx st payer mintKey mint tok co
          receiver rn spk n).2.patientData = st.patientData ∧
      (store_patient_data_tx (some r) cts).2 = some r := by
  intro st payer mintKey mint tok co receiver rn spk n r cts
  refine ⟨?_, ?_, rfl⟩
  · cases h : st.patientData <;> simp [share_patient_data_tx, h]
  · cases h : st.patientData
    · simp [share_patient_data_with_role_tx, h]
    · cases hg : credentialGate payer mintKey mint tok <;>
        simp [share_patient_data_with_role_tx, h, hg]

/-- C10: the unrestricted re-share never reads the caller beyond the
signature: any two callers with the same remaining inputs get the
identical result (same queued job, same state), and the call never
fails with any core program error, in particular never with
Unauthorized, InvalidCredentialMint or MissingCredential. -/
theorem ungated_share_ignores_caller :
    ∀ st p1 p2 co receiver rn spk n,
      share_patient_data_tx st p1 co receiver rn spk n
          = share_patient_data_tx st p2 co receiver rn spk n ∧
      coreErrorOf (share_patient_data_tx st p1 co receiver rn spk n).1
          = none := by
  intro st p1 p2 co receiver rn spk n
  constructor
  · rfl
  · cases h : st.patientData <;> simp [share_patient_data_tx, h, coreErrorOf]

end ShareMedicalRecords
